import Mathlib

/-!
Shallow embedding of `libs/partners/google-genai/langchain_google_genai/chat_models.py`:
the message-format translation layer (`_convert_to_parts`, `_parse_chat_history`,
`_parts_to_content`, `_response_to_result`), the retry layer
(`_create_retry_decorator`, `_chat_with_retry`, `_achat_with_retry`, including the
tenacity `wait_exponential` / `stop_after_attempt` semantics those functions
configure), parameter validation (`validate_environment`) and request preparation
(`_prepare_chat`).

Python exceptions are modelled by an explicit error type threaded through
`Except`; Python `None`-able attributes by `Option`; the network/IO image
resolution of `_url_to_pil` by an explicit resolver argument.
-/

namespace ChatModels

/-- The exception classes that the module raises or catches.
`resourceExhausted`, `serviceUnavailable`, `failedPrecondition` and
`invalidArgument` are the concrete `google.api_core.exceptions` classes the code
names; `googleAPIError` stands for any other instance of the
`google.api_core.exceptions.GoogleAPIError` base class (every one of the four
concrete classes above is also an instance of that base class, which
`isGoogleAPIError` reflects).  `chatGoogleGenerativeAIError` is the module's own
`ChatGoogleGenerativeAIError` (a plain `Exception` subclass, not a Google API
error).  `valueError`, `indexError` and `otherError` model `ValueError`,
`IndexError` and any remaining Python exception. -/
inductive PyExc where
  | resourceExhausted (msg : String)
  | serviceUnavailable (msg : String)
  | failedPrecondition (msg : String)
  | invalidArgument (msg : String)
  | googleAPIError (msg : String)
  | chatGoogleGenerativeAIError (msg : String)
  | valueError (msg : String)
  | indexError (msg : String)
  | otherError (msg : String)
  deriving DecidableEq

/-- Whether the first list starts with the second. -/
def charsStartWith : List Char → List Char → Bool
  | _, [] => true
  | [], _ :: _ => false
  | a :: as, b :: bs => a == b && charsStartWith as bs

/-- Whether the second list occurs contiguously inside the first. -/
def charsContain : List Char → List Char → Bool
  | [], pat => pat.isEmpty
  | a :: as, pat => charsStartWith (a :: as) pat || charsContain as pat

/-- Python's `"pat" in s` substring test, used by `_chat_with_retry` on
`exc.message`. -/
def containsSub (s pat : String) : Bool :=
  charsContain s.toList pat.toList

/- ===== LangChain-side message model (inputs of `_parse_chat_history`) ===== -/

/-- The `image_url` value of an OpenAI-format image part: either a bare string
or a mapping (which must contain an `"url"` key). -/
inductive ImgUrlVal where
  | str (url : String)
  | dict (entries : List (String × String))
  deriving DecidableEq

/-- One element of a list-shaped message content, as `_convert_to_parts`
distinguishes them: a bare string; a mapping with `type == "text"`; a mapping
with `type == "image_url"`; a mapping with some other `type`; a mapping without
a `"type"` key (the permissive passthrough); anything that is neither a string
nor a mapping. -/
inductive ContentItem where
  | str (s : String)
  | textPart (text : String)
  | imagePart (imageUrl : ImgUrlVal)
  | otherTyped (ty : String)
  | noType (entries : List (String × String))
  | other
  deriving DecidableEq

/-- `message.content`: a plain string or a list of parts. -/
inductive MessageContent where
  | str (s : String)
  | items (l : List ContentItem)
  deriving DecidableEq

/-- The message classes `_parse_chat_history` dispatches on with `isinstance`:
`SystemMessage`, `HumanMessage`, `AIMessage`, and any other `BaseMessage`
subclass (e.g. `ChatMessage`), which hits the "Unexpected message" branch. -/
inductive Message where
  | system (content : MessageContent)
  | human (content : MessageContent)
  | ai (content : MessageContent)
  | chat (role : String) (content : MessageContent)
  deriving DecidableEq

def Message.content : Message → MessageContent
  | .system c => c
  | .human c => c
  | .ai c => c
  | .chat _ c => c

/-- Stands for Python's `f"{type(message)}"` in the error text. -/
def Message.typeName : Message → String
  | .system _ => "SystemMessage"
  | .human _ => "HumanMessage"
  | .ai _ => "AIMessage"
  | .chat _ _ => "ChatMessage"

def Message.isSystem : Message → Bool
  | .system _ => true
  | _ => false

/- ===== Provider-side part model (outputs of `_convert_to_parts`) ===== -/

/-- A provider `Part`: `{text: ...}`, `{inline_data: <PIL image>}` (the image
identified by the bytes the resolver produced), or the raw mapping appended
unchanged by the permissive passthrough branch. -/
inductive Part where
  | text (s : String)
  | inlineData (image : String)
  | raw (item : ContentItem)
  deriving DecidableEq

/-- A provider `ContentDict`: `{"role": ..., "parts": ...}`. -/
structure ContentDict where
  role : String
  parts : List Part
  deriving DecidableEq

/-- `_url_to_pil`'s observable behaviour: it resolves an image source string
(http(s) URL, `gs://` path, `data:image` base64, local path) to a decoded
image, or fails; the failure message is wrapped in a `ValueError` by that
function.  The network/filesystem work is abstracted as a resolver function. -/
def Resolver : Type := String → Except String String

def lookupKey (entries : List (String × String)) (k : String) : Option String :=
  (entries.find? (fun e => e.1 == k)).map (fun e => e.2)

/-- The `img_url` unwrapping inside `_convert_to_parts`'s `image_url` branch:
a mapping must contain `"url"`, otherwise `ValueError`. -/
def extractImgUrl : ImgUrlVal → Except PyExc String
  | .str u => .ok u
  | .dict es =>
    match lookupKey es "url" with
    | some u => .ok u
    | none => .error (.valueError "Unrecognized message image format")

/-- One iteration of `_convert_to_parts`'s loop body. -/
def convertToPart (resolve : Resolver) : ContentItem → Except PyExc Part
  | .str s => .ok (.text s)
  | .textPart t => .ok (.text t)
  | .imagePart u =>
    match extractImgUrl u with
    | .error e => .error e
    | .ok url =>
      match resolve url with
      | .ok img => .ok (.inlineData img)
      | .error m =>
        .error (.valueError ("Unable to process the provided image source: " ++ m))
  | .otherTyped ty =>
    .error (.valueError ("Unrecognized message part type: " ++ ty))
  | .noType es => .ok (.raw (.noType es))
  | .other =>
    .error (.chatGoogleGenerativeAIError "Gemini only supports text and inline_data parts.")

/-- `_convert_to_parts`: a bare string becomes one text part; a list is
converted element by element, left to right, the first failure aborting. -/
def convertToParts (resolve : Resolver) : MessageContent → Except PyExc (List Part)
  | .str s => .ok [.text s]
  | .items l => l.mapM (convertToPart resolve)

/- ===== `_parse_chat_history` ===== -/

/-- The `ValueError` text for a leading `SystemMessage` when
`convert_system_message_to_human` is false (abridged to its first line). -/
def systemNotSupportedMessage : String :=
  "SystemMessages are not yet supported!"

/-- The `ValueError` text for a held system message followed by an AI turn. -/
def systemFollowedMessage : String :=
  "SystemMessage should be followed by a HumanMessage and not by AIMessage."

/-- The `ValueError` text for a message of an unexpected kind. -/
def unexpectedTypeMessage (tyName : String) (i : Nat) : String :=
  "Unexpected message with type " ++ tyName ++ " at the position " ++ toString i ++ "."

/-- The `isinstance` role chain of `_parse_chat_history`: `AIMessage` maps to
`"model"`, `HumanMessage` to `"user"`, everything else to the error branch. -/
def roleOf : Message → Option String
  | .ai _ => some "model"
  | .human _ => some "user"
  | _ => none

/-- The loop of `_parse_chat_history`: `i` is the running index and `rawSys`
the held-aside leading system message's content (`raw_system_message`).
Mirrors the Python order of effects: the index-0 system special cases, then the
role chain, then `_convert_to_parts(message.content)`, then (when a held system
message exists) the role check followed by `_convert_to_parts` of the held
content, prepended, and the held state cleared. -/
def parseLoop (resolve : Resolver) (flag : Bool) :
    List Message → Nat → Option MessageContent → Except PyExc (List ContentDict)
  | [], _, _ => .ok []
  | m :: rest, i, rawSys =>
    if i == 0 && m.isSystem && !flag then
      .error (.valueError systemNotSupportedMessage)
    else if i == 0 && m.isSystem then
      parseLoop resolve flag rest (i + 1) (some m.content)
    else
      match roleOf m with
      | none => .error (.valueError (unexpectedTypeMessage m.typeName i))
      | some role =>
        match convertToParts resolve m.content with
        | .error e => .error e
        | .ok pm =>
          match rawSys with
          | some sc =>
            if role == "model" then
              .error (.valueError systemFollowedMessage)
            else
              match convertToParts resolve sc with
              | .error e => .error e
              | .ok ps =>
                match parseLoop resolve flag rest (i + 1) none with
                | .error e => .error e
                | .ok ts => .ok (⟨role, ps ++ pm⟩ :: ts)
          | none =>
            match parseLoop resolve flag rest (i + 1) none with
            | .error e => .error e
            | .ok ts => .ok (⟨role, pm⟩ :: ts)

/-- `_parse_chat_history(input_messages, convert_system_message_to_human)`. -/
def parseChatHistory (resolve : Resolver) (msgs : List Message) (flag : Bool) :
    Except PyExc (List ContentDict) :=
  parseLoop resolve flag msgs 0 none

/- ===== Response side: `_parts_to_content` and `_response_to_result` ===== -/

/-- A part of a response candidate's content as the code reads it: its `.text`
attribute (`Option` models Python `None`) and its `.inline_data` attribute
(`none` models a falsy/absent value, which is what `not parts[0].inline_data`
tests). -/
structure RespPart where
  text : Option String
  inlineData : Option String
  deriving DecidableEq

/-- A `{"type": "text", "text": ...}` descriptor produced by
`_parts_to_content` for a non-collapsed response. -/
structure TextDesc where
  type : String
  text : String
  deriving DecidableEq

/-- The `Union[List[dict], str]` result of `_parts_to_content`. -/
inductive PartsContent where
  | str (s : String)
  | list (l : List TextDesc)
  deriving DecidableEq

/-- The loop of `_parts_to_content`: each part with a non-`None` text becomes
a text descriptor; a part with `None` text raises
`ChatGoogleGenerativeAIError("Unexpected part type. ...")`. -/
def partsToContentLoop : List RespPart → Except PyExc (List TextDesc)
  | [] => .ok []
  | p :: rest =>
    match p.text with
    | some t =>
      match partsToContentLoop rest with
      | .error e => .error e
      | .ok l => .ok (⟨"text", t⟩ :: l)
    | none => .error (.chatGoogleGenerativeAIError "Unexpected part type.")

/-- `_parts_to_content`: a single part with non-`None` text and falsy
`inline_data` collapses to the plain string; an empty list yields `""` (with a
logged warning); anything else goes through the descriptor loop. -/
def partsToContent (parts : List RespPart) : Except PyExc PartsContent :=
  match parts with
  | [p] =>
    if p.text.isSome && p.inlineData == none then
      .ok (.str (p.text.getD ""))
    else
      match partsToContentLoop parts with
      | .error e => .error e
      | .ok l => .ok (.list l)
  | [] => .ok (.str "")
  | _ =>
    match partsToContentLoop parts with
    | .error e => .error e
    | .ok l => .ok (.list l)

/-- A reconstructed LangChain message on the response side: the `ai_msg_t`,
`human_msg_t` and `chat_msg_t` constructors of `_response_to_result`. -/
inductive RMessage where
  | ai (content : PartsContent)
  | human (content : PartsContent)
  | chat (content : PartsContent) (role : String)
  deriving DecidableEq

/-- The `generation_info` dict: `finish_reason` is added only when the
candidate's finish reason is truthy, `safety_ratings` only when the candidate's
safety-ratings list is non-empty. -/
structure GenerationInfo where
  finishReason : Option String
  safetyRatings : Option (List String)
  deriving DecidableEq

structure Generation where
  message : RMessage
  generationInfo : GenerationInfo
  deriving DecidableEq

/-- A response candidate's `content` attribute. -/
structure CandContent where
  role : String
  parts : List RespPart
  deriving DecidableEq

/-- A response candidate: content, a truthy-or-absent finish reason (its
`.name`), and the safety-ratings list (each already serialized to a string). -/
structure Candidate where
  content : CandContent
  finishReason : Option String
  safetyRatings : List String
  deriving DecidableEq

/-- `response.prompt_feedback`: its serialized form when `to_dict` succeeds;
`serializable := false` models a `to_dict` call that raises (the exception is
caught and logged by `_response_to_result`). -/
structure PromptFeedback where
  serialized : String
  serializable : Bool
  deriving DecidableEq

/-- A provider `GenerateContentResponse` as `_response_to_result` reads it. -/
structure GenResponse where
  promptFeedback : Option PromptFeedback
  candidates : List Candidate
  deriving DecidableEq

structure ChatResult where
  generations : List Generation
  llmOutput : Option String
  deriving DecidableEq

/-- The per-candidate body of `_response_to_result`'s loop: content parts via
`_parts_to_content`, role via the `role_map` (unknown roles become a
`ChatMessage` with a logged warning), then the `generation_info` dict. -/
def candidateToGeneration (c : Candidate) : Except PyExc Generation :=
  match partsToContent c.content.parts with
  | .error e => .error e
  | .ok pc =>
    let msg : RMessage :=
      if c.content.role == "model" then .ai pc
      else if c.content.role == "user" then .human pc
      else .chat pc c.content.role
    .ok { message := msg
          generationInfo :=
            { finishReason := c.finishReason
              safetyRatings :=
                if c.safetyRatings == [] then none else some c.safetyRatings } }

/-- `_response_to_result`: serialize prompt feedback (failures absorbed),
convert each candidate, and when the candidate list is empty replace the
(empty) generation list with a single empty-content AI generation after
logging a warning. -/
def responseToResult (r : GenResponse) : Except PyExc ChatResult :=
  let llmOut : Option String :=
    match r.promptFeedback with
    | some pf => if pf.serializable then some pf.serialized else none
    | none => none
  match r.candidates.mapM candidateToGeneration with
  | .error e => .error e
  | .ok gens =>
    let gens :=
      if r.candidates == [] then
        [{ message := .ai (.str "")
           generationInfo := { finishReason := none, safetyRatings := none } }]
      else gens
    .ok { generations := gens, llmOutput := llmOut }

/- ===== `_create_retry_decorator`, `_chat_with_retry`, `_achat_with_retry` ===== -/

/-- `isinstance(e, google.api_core.exceptions.GoogleAPIError)`: the four named
subclasses and the generic case are instances; the module's own error class,
`ValueError`, `IndexError` and other exceptions are not. -/
def isGoogleAPIError : PyExc → Bool
  | .resourceExhausted _ => true
  | .serviceUnavailable _ => true
  | .failedPrecondition _ => true
  | .invalidArgument _ => true
  | .googleAPIError _ => true
  | _ => false

def isResourceExhausted : PyExc → Bool
  | .resourceExhausted _ => true
  | _ => false

def isServiceUnavailable : PyExc → Bool
  | .serviceUnavailable _ => true
  | _ => false

/-- The retry predicate configured by `_create_retry_decorator`:
`retry_if_exception_type(ResourceExhausted) | retry_if_exception_type(ServiceUnavailable)
| retry_if_exception_type(GoogleAPIError)`. -/
def retryCondition (e : PyExc) : Bool :=
  isResourceExhausted e || isServiceUnavailable e || isGoogleAPIError e

/-- tenacity's `wait_exponential(multiplier, max, exp_base := 2, min)` at a
1-based attempt number: `max(max(0, min), min(multiplier * 2^(n-1), max))`. -/
def waitExponential (multiplier minS maxS n : Nat) : Nat :=
  Nat.max (Nat.max 0 minS) (Nat.min (multiplier * 2 ^ (n - 1)) maxS)

/-- The wait configured by `_create_retry_decorator`:
`wait_exponential(multiplier=2, min=1, max=60)`. -/
def retryWait (n : Nat) : Nat :=
  waitExponential 2 1 60 n

/-- The observable trace of one tenacity-wrapped invocation: the final result,
the number of attempts actually made, and the waits slept between attempts. -/
structure RunTrace (α : Type) where
  result : Except PyExc α
  attempts : Nat
  waits : List Nat

/-- tenacity's retry loop for `retry(reraise=True, stop=stop_after_attempt(maxAttempts),
wait, retry=cond)`: attempt `n` runs `body n` (the behaviour of the wrapped
call on the n-th attempt); success stops; a failure that the predicate rejects
is raised immediately; a retryable failure on the last allowed attempt is
re-raised as-is (`reraise=True`); otherwise the loop sleeps `wait n` and tries
again.  `fuel` is the number of attempts still allowed. -/
def tenacityLoop (cond : PyExc → Bool) (wait : Nat → Nat)
    (body : Nat → Except PyExc α) : Nat → Nat → RunTrace α
  | 0, _ => ⟨.error (.otherError "retry state exhausted"), 0, []⟩
  | fuel + 1, n =>
    match body n with
    | .ok v => ⟨.ok v, 1, []⟩
    | .error e =>
      if cond e && fuel != 0 then
        let t := tenacityLoop cond wait body fuel (n + 1)
        ⟨t.result, t.attempts + 1, wait n :: t.waits⟩
      else ⟨.error e, 1, []⟩

/-- The decorator returned by `_create_retry_decorator`, applied to a body:
at most 10 attempts, the exponential wait above, the transient-error
predicate. -/
def retryDecorator (body : Nat → Except PyExc α) : RunTrace α :=
  tenacityLoop retryCondition retryWait body 10 1

/-- The `ValueError` text raised for a location-unsupported
`FailedPrecondition`. -/
def locationErrorMessage : String :=
  "Your location is not supported by google-generativeai at the moment. Try to use ChatVertexAI LLM from langchain_google_vertexai."

/-- The `try`/`except` body of the inner `_chat_with_retry` around one call of
`generation_method`: a `FailedPrecondition` mentioning an unsupported location
becomes a `ValueError`; any other `FailedPrecondition` is caught and the
handler falls through, so the function returns `None` (modelled `none`); an
`InvalidArgument` is wrapped into `ChatGoogleGenerativeAIError`; every other
exception is re-raised unchanged; a successful call returns its value. -/
def chatAttempt (call : Except PyExc α) : Except PyExc (Option α) :=
  match call with
  | .ok v => .ok (some v)
  | .error (.failedPrecondition m) =>
    if containsSub m "location is not supported" then
      .error (.valueError locationErrorMessage)
    else .ok none
  | .error (.invalidArgument m) =>
    .error (.chatGoogleGenerativeAIError ("Invalid argument provided to Gemini: " ++ m))
  | .error e => .error e

/-- `_chat_with_retry(generation_method, **kwargs)`: the retry decorator
around `chatAttempt`.  `genMethod n` is what `generation_method(**kwargs)`
does on the n-th attempt. -/
def chatWithRetry (genMethod : Nat → Except PyExc α) : RunTrace (Option α) :=
  retryDecorator (fun n => chatAttempt (genMethod n))

/-- The `try`/`except` body of the inner `_achat_with_retry`: only
`InvalidArgument` is special-cased (wrapped); everything else, including
`FailedPrecondition`, is re-raised unchanged. -/
def achatAttempt (call : Except PyExc α) : Except PyExc α :=
  match call with
  | .ok v => .ok v
  | .error (.invalidArgument m) =>
    .error (.chatGoogleGenerativeAIError ("Invalid argument provided to Gemini: " ++ m))
  | .error e => .error e

/-- `_achat_with_retry(generation_method, **kwargs)`. -/
def achatWithRetry (genMethod : Nat → Except PyExc α) : RunTrace α :=
  retryDecorator (fun n => achatAttempt (genMethod n))

/- ===== `validate_environment` ===== -/

/-- The pydantic field values `validate_environment` reads.  Rationals model
the float parameters: the validator only compares them, it performs no float
arithmetic. -/
structure ModelValues where
  model : String
  googleApiKey : Option String
  temperature : Option ℚ
  topP : Option ℚ
  topK : Option Int
  deriving DecidableEq

/-- `validate_environment`: resolve the API key (failing if absent), configure
the client (a process-global setter with no validation and no network
activity, modelled as a no-op), then check `temperature ∈ [0,1]`,
`top_p ∈ [0,1]`, `top_k > 0` in that order, each `None`-valued knob being
skipped; finally construct the model client (no network activity either). -/
def validateEnvironment (v : ModelValues) : Except PyExc ModelValues :=
  match v.googleApiKey with
  | none =>
    .error (.valueError "Did not find google_api_key, please add an environment variable GOOGLE_API_KEY which contains it, or pass google_api_key as a named parameter.")
  | some _ =>
    if v.temperature.isSome && !(decide (0 ≤ v.temperature.getD 0) && decide (v.temperature.getD 0 ≤ 1)) then
      .error (.valueError "temperature must be in the range [0.0, 1.0]")
    else if v.topP.isSome && !(decide (0 ≤ v.topP.getD 0) && decide (v.topP.getD 0 ≤ 1)) then
      .error (.valueError "top_p must be in the range [0.0, 1.0]")
    else if v.topK.isSome && decide (v.topK.getD 0 ≤ 0) then
      .error (.valueError "top_k must be positive")
    else .ok v

/- ===== `_prepare_chat` ===== -/

/-- `_prepare_chat`: build the params (total, elided here — `_prepare_params`
only filters `None`-valued knobs into a dict and merges overrides, and cannot
fail), translate the history, then `history.pop()` — which raises `IndexError`
on an empty history — and start a chat session with the remaining prefix.
Returns the session history and the popped outbound message. -/
def prepareChat (resolve : Resolver) (msgs : List Message) (flag : Bool) :
    Except PyExc (List ContentDict × ContentDict) :=
  match parseChatHistory resolve msgs flag with
  | .error e => .error e
  | .ok history =>
    match history.getLast? with
    | none => .error (.indexError "pop from empty list")
    | some last => .ok (history.dropLast, last)

/- ===== Theorems ===== -/

/-- C5: for every conversation whose first message is a system message, when
`convert_system_message_to_human` is false, history translation fails with the
configuration `ValueError` about unsupported system messages, whatever the
contents of any message are and whatever the image resolver does — in
particular before any part conversion is performed. -/
theorem c5_leading_system_flag_false (resolve : Resolver) (s : MessageContent)
    (rest : List Message) :
    parseChatHistory resolve (Message.system s :: rest) false =
      .error (.valueError systemNotSupportedMessage) := by
  simp [parseChatHistory, parseLoop, Message.isSystem]

/-- C7: for every provider response with an empty candidate list, the
translator raises no error and returns a result whose generations are exactly
one empty-content AI generation with empty generation info. -/
theorem c7_empty_candidates (r : GenResponse) (h : r.candidates = []) :
    ∃ llmOut, responseToResult r =
      .ok { generations :=
              [{ message := .ai (.str "")
                 generationInfo := { finishReason := none, safetyRatings := none } }]
            llmOutput := llmOut } := by
  obtain ⟨pf, cands⟩ := r
  simp only at h
  subst h
  cases pf with
  | none => exact ⟨none, rfl⟩
  | some p =>
    exact ⟨if p.serializable then some p.serialized else none, rfl⟩

/-- C7 witness: the empty response. -/
theorem c7_empty_candidates_witness :
    ∃ llmOut, responseToResult ⟨none, []⟩ =
      .ok { generations :=
              [{ message := .ai (.str "")
                 generationInfo := { finishReason := none, safetyRatings := none } }]
            llmOutput := llmOut } :=
  c7_empty_candidates ⟨none, []⟩ rfl

/-- C8: at construction time, a temperature outside `[0,1]`, a top_p outside
`[0,1]`, or a top_k ≤ 0 each raise a `ValueError` immediately (the validator
runs before the model client is built and performs no network activity);
construction with temperature 1.5 fails with such an error while construction
with temperature 0.5 and the other knobs unset succeeds. -/
theorem c8_construction_validation :
    (∀ (m k : String) (t : ℚ) (pq : Option ℚ) (tk : Option Int), ¬(0 ≤ t ∧ t ≤ 1) →
        validateEnvironment ⟨m, some k, some t, pq, tk⟩ =
          .error (.valueError "temperature must be in the range [0.0, 1.0]"))
  ∧ (∀ (m k : String) (temp : Option ℚ) (p : ℚ) (tk : Option Int),
        (∀ t, temp = some t → 0 ≤ t ∧ t ≤ 1) → ¬(0 ≤ p ∧ p ≤ 1) →
        validateEnvironment ⟨m, some k, temp, some p, tk⟩ =
          .error (.valueError "top_p must be in the range [0.0, 1.0]"))
  ∧ (∀ (m k : String) (temp pq : Option ℚ) (tk : Int),
        (∀ t, temp = some t → 0 ≤ t ∧ t ≤ 1) → (∀ p, pq = some p → 0 ≤ p ∧ p ≤ 1) →
        tk ≤ 0 →
        validateEnvironment ⟨m, some k, temp, pq, some tk⟩ =
          .error (.valueError "top_k must be positive"))
  ∧ validateEnvironment ⟨"gemini-pro", some "key", some ((3 : ℚ) / 2), none, none⟩ =
      .error (.valueError "temperature must be in the range [0.0, 1.0]")
  ∧ validateEnvironment ⟨"gemini-pro", some "key", some ((1 : ℚ) / 2), none, none⟩ =
      .ok ⟨"gemini-pro", some "key", some ((1 : ℚ) / 2), none, none⟩ := by
  refine ⟨?_, ?_, ?_, ?_, ?_⟩
  · intro m k t pq tk ht
    rw [validateEnvironment]
    rw [if_pos]
    simp only [Option.isSome_some, Option.getD_some, Bool.true_and]
    simp only [not_and_or] at ht
    rcases ht with h | h
    · simp [decide_eq_false (by exact h)]
    · simp [decide_eq_false (by exact h)]
  · intro m k temp p tk htemp hp
    rw [validateEnvironment]
    rw [if_neg, if_pos]
    · simp only [Option.isSome_some, Option.getD_some, Bool.true_and]
      simp only [not_and_or] at hp
      rcases hp with h | h
      · simp [decide_eq_false (by exact h)]
      · simp [decide_eq_false (by exact h)]
    · cases temp with
      | none => simp
      | some t =>
        have := htemp t rfl
        simp [decide_eq_true this.1, decide_eq_true this.2]
  · intro m k temp pq tk htemp hpq htk
    rw [validateEnvironment]
    rw [if_neg, if_neg, if_pos]
    · simp [decide_eq_true htk]
    · cases pq with
      | none => simp
      | some p =>
        have := hpq p rfl
        simp [decide_eq_true this.1, decide_eq_true this.2]
    · cases temp with
      | none => simp
      | some t =>
        have := htemp t rfl
        simp [decide_eq_true this.1, decide_eq_true this.2]
  · rw [validateEnvironment]
    norm_num
  · rw [validateEnvironment]
    norm_num

/-- C8 witness: temperature 1.5 (out of range) and a non-positive top_k. -/
theorem c8_construction_validation_witness :
    validateEnvironment ⟨"gemini-pro", some "key", some ((3 : ℚ) / 2), none, none⟩ =
      .error (.valueError "temperature must be in the range [0.0, 1.0]")
  ∧ validateEnvironment ⟨"gemini-pro", some "key", none, none, some 0⟩ =
      .error (.valueError "top_k must be positive") := by
  refine ⟨c8_construction_validation.2.2.2.1, ?_⟩
  exact c8_construction_validation.2.2.1 "gemini-pro" "key" none none 0
    (by intro t ht; cases ht) (by intro p hp; cases hp) le_rfl

/-- C10: the empty conversation, and a conversation of just a leading system
message with the flag true, both translate to an empty turn list (the held
system content is silently discarded); request preparation then pops from this
empty list, so it fails with a raw `IndexError`, which is none of the
module's `ValueError` / `ChatGoogleGenerativeAIError` categories. -/
theorem c10_empty_history_pop :
    (∀ (resolve : Resolver) (flag : Bool), parseChatHistory resolve [] flag = .ok [])
  ∧ (∀ (resolve : Resolver) (s : MessageContent),
        parseChatHistory resolve [.system s] true = .ok [])
  ∧ (∀ (resolve : Resolver) (flag : Bool),
        prepareChat resolve [] flag = .error (.indexError "pop from empty list"))
  ∧ (∀ (resolve : Resolver) (s : MessageContent),
        prepareChat resolve [.system s] true = .error (.indexError "pop from empty list"))
  ∧ (∀ m m', PyExc.indexError m ≠ PyExc.valueError m'
        ∧ PyExc.indexError m ≠ PyExc.chatGoogleGenerativeAIError m') := by
  refine ⟨?_, ?_, ?_, ?_, ?_⟩
  · intro resolve flag
    simp [parseChatHistory, parseLoop]
  · intro resolve s
    simp [parseChatHistory, parseLoop, Message.isSystem, Message.content]
  · intro resolve flag
    simp [prepareChat, parseChatHistory, parseLoop]
  · intro resolve s
    simp [prepareChat, parseChatHistory, parseLoop, Message.isSystem, Message.content]
  · intro m m'
    exact ⟨by simp, by simp⟩

/-- The descriptor loop on a list of parts that all carry text succeeds and
maps each part to its `{"type": "text", ...}` descriptor. -/
theorem partsToContentLoop_all_text (parts : List RespPart)
    (h : ∀ p ∈ parts, p.text.isSome) :
    partsToContentLoop parts =
      .ok (parts.map (fun p => ⟨"text", p.text.getD ""⟩)) := by
  induction parts with
  | nil => rfl
  | cons p rest ih =>
    have hp : p.text.isSome := h p (List.mem_cons_self p rest)
    obtain ⟨t, ht⟩ := Option.isSome_iff_exists.mp hp
    have := ih (fun q hq => h q (List.mem_cons_of_mem p hq))
    simp [partsToContentLoop, ht, this]

/-- The descriptor loop fails with the module's conversion error as soon as the
list contains a part whose text is `None`. -/
theorem partsToContentLoop_none_text (parts : List RespPart) (x : RespPart)
    (hx : x ∈ parts) (hnone : x.text = none) :
    ∃ msg, partsToContentLoop parts = .error (.chatGoogleGenerativeAIError msg) := by
  induction parts with
  | nil => cases hx
  | cons p rest ih =>
    rcases List.mem_cons.mp hx with h | h
    · subst h
      exact ⟨"Unexpected part type.", by simp [partsToContentLoop, hnone]⟩
    · cases hp : p.text with
      | none => exact ⟨"Unexpected part type.", by simp [partsToContentLoop, hp]⟩
      | some t =>
        obtain ⟨msg, hmsg⟩ := ih h
        exact ⟨msg, by simp [partsToContentLoop, hp, hmsg]⟩

/-- C6: reverse part mapping.  A single part carrying text and no inline data
collapses to that text as a plain string; zero parts give the empty string; a
single part carrying both text and inline data, or several parts, become a
list of text descriptors; and any part whose text is absent (an inline-data,
non-text part) raises the fatal "unexpected part type" conversion error. -/
theorem c6_parts_to_content :
    (∀ t, partsToContent [⟨some t, none⟩] = .ok (.str t))
  ∧ partsToContent [] = .ok (.str "")
  ∧ (∀ t d, partsToContent [⟨some t, some d⟩] = .ok (.list [⟨"text", t⟩]))
  ∧ (∀ (p q : RespPart) (rest : List RespPart),
        (∀ x ∈ p :: q :: rest, x.text.isSome) →
        partsToContent (p :: q :: rest) =
          .ok (.list ((p :: q :: rest).map (fun x => ⟨"text", x.text.getD ""⟩))))
  ∧ (∀ (parts : List RespPart) (x : RespPart), x ∈ parts → x.text = none →
        ∃ msg, partsToContent parts = .error (.chatGoogleGenerativeAIError msg)) := by
  refine ⟨?_, rfl, ?_, ?_, ?_⟩
  · intro t
    simp [partsToContent]
  · intro t d
    simp [partsToContent, partsToContentLoop]
  · intro p q rest h
    simp [partsToContent, partsToContentLoop_all_text _ h]
  · intro parts x hx hnone
    obtain ⟨msg, hmsg⟩ := partsToContentLoop_none_text parts x hx hnone
    refine ⟨msg, ?_⟩
    match parts, hx with
    | [p], hx =>
      have hpx : p = x := by
        rcases List.mem_singleton.mp hx with h
        exact h.symm
      subst hpx
      simp [partsToContent, hnone, hmsg]
    | p :: q :: rest, _ =>
      simp [partsToContent, hmsg]

/-- C6 witness: a text-only part collapses; an inline-data part fails. -/
theorem c6_parts_to_content_witness :
    partsToContent [⟨some "hi", none⟩] = .ok (.str "hi")
  ∧ partsToContent [⟨some "a", none⟩, ⟨some "b", none⟩] =
      .ok (.list [⟨"text", "a"⟩, ⟨"text", "b"⟩])
  ∧ (∃ msg, partsToContent [⟨none, some "bytes"⟩] =
      .error (.chatGoogleGenerativeAIError msg)) := by
  refine ⟨c6_parts_to_content.1 "hi", ?_, ?_⟩
  · exact c6_parts_to_content.2.2.2.1 ⟨some "a", none⟩ ⟨some "b", none⟩ []
      (by intro x hx; fin_cases hx <;> rfl)
  · exact c6_parts_to_content.2.2.2.2 [⟨none, some "bytes"⟩] ⟨none, some "bytes"⟩
      (List.mem_singleton.mpr rfl) rfl

/-- C1: with the flag true, a leading system message is held aside and never
becomes its own turn; its converted parts are prepended exactly once, before
the parts of the first subsequently emitted turn, and only if that turn's role
is "user" (a first emitted turn of role "model" is a fatal error); the
continuation then runs with the held state cleared (`none`), so no later turn
receives the parts.  The conversation [System "Be terse", Human "Hi"] yields
exactly one user turn with both texts. -/
theorem c1_system_message_merge (resolve : Resolver) (s c : MessageContent)
    (m : Message) (rest : List Message) (pm : List Part)
    (hm : convertToParts resolve m.content = .ok pm) :
    (m = .human c →
        parseChatHistory resolve (.system s :: m :: rest) true =
          (match convertToParts resolve s with
           | .error e => .error e
           | .ok ps =>
             match parseLoop resolve true rest 2 none with
             | .error e => .error e
             | .ok ts => .ok (⟨"user", ps ++ pm⟩ :: ts)))
  ∧ (m = .ai c →
        parseChatHistory resolve (.system s :: m :: rest) true =
          .error (.valueError systemFollowedMessage))
  ∧ parseChatHistory resolve [.system (.str "Be terse"), .human (.str "Hi")] true =
      .ok [⟨"user", [.text "Be terse", .text "Hi"]⟩] := by
  refine ⟨?_, ?_, ?_⟩
  · rintro rfl
    simp only [Message.content] at hm
    simp [parseChatHistory, parseLoop, Message.isSystem, Message.content, roleOf, hm]
  · rintro rfl
    simp only [Message.content] at hm
    simp [parseChatHistory, parseLoop, Message.isSystem, Message.content, roleOf, hm]
  · rfl

/-- C1 witness: the spec's own example, with system content "a" and human
content "b" for the general conjuncts. -/
theorem c1_system_message_merge_witness :
    parseChatHistory (fun _ => .error "") [.system (.str "a"), .human (.str "b")] true =
      .ok [⟨"user", [.text "a", .text "b"]⟩]
  ∧ parseChatHistory (fun _ => .error "") [.system (.str "a"), .ai (.str "b")] true =
      .error (.valueError systemFollowedMessage) := by
  constructor
  · have h := (c1_system_message_merge (fun _ => .error "") (.str "a") (.str "b")
      (.human (.str "b")) [] [.text "b"] rfl).1 rfl
    rw [h]
    rfl
  · exact (c1_system_message_merge (fun _ => .error "") (.str "a") (.str "b")
      (.ai (.str "b")) [] [.text "b"] rfl).2.1 rfl

/-- A role produced by the `isinstance` chain is "model" or "user". -/
theorem roleOf_values (m : Message) (role : String) (h : roleOf m = some role) :
    role = "model" ∨ role = "user" := by
  cases m <;> simp [roleOf] at h <;> simp [h]

/-- Every turn list the history loop successfully produces carries only the
roles "user" and "model". -/
theorem parseLoop_ok_roles (resolve : Resolver) (flag : Bool) :
    ∀ (msgs : List Message) (i : Nat) (rawSys : Option MessageContent)
      (turns : List ContentDict),
      parseLoop resolve flag msgs i rawSys = .ok turns →
      ∀ t ∈ turns, t.role = "user" ∨ t.role = "model" := by
  intro msgs i rawSys
  induction msgs, i, rawSys using parseLoop.induct resolve flag with
  | case1 i raw =>
    intro turns h t ht
    simp [parseLoop] at h
    subst h
    cases ht
  | case2 m rest i raw h1 =>
    intro turns h t ht
    simp [parseLoop, h1] at h
  | case3 m rest i raw h1 h2 ih =>
    intro turns h t ht
    simp only [parseLoop, if_pos h2, if_neg h1] at h
    exact ih turns h t ht
  | case4 m rest i raw h1 h2 hrole =>
    intro turns h t ht
    simp [parseLoop, h1, h2, hrole] at h
  | case5 m rest i raw h1 h2 role hrole e hconv =>
    intro turns h t ht
    simp [parseLoop, h1, h2, hrole, hconv] at h
  | case6 m rest i h1 h2 role hrole ps hconv sc hmodel =>
    intro turns h t ht
    simp [parseLoop, h1, h2, hrole, hconv, hmodel] at h
  | case7 m rest i h1 h2 role hrole ps hconv sc hmodel e hconvs =>
    intro turns h t ht
    simp [parseLoop, h1, h2, hrole, hconv, hmodel, hconvs] at h
  | case8 m rest i h1 h2 role hrole ps hconv sc hmodel qs hconvs e hrec ih =>
    intro turns h t ht
    simp [parseLoop, h1, h2, hrole, hconv, hmodel, hconvs, hrec] at h
  | case9 m rest i h1 h2 role hrole ps hconv sc hmodel qs hconvs ts hrec ih =>
    intro turns h t ht
    simp only [parseLoop, if_neg h1, if_neg h2, hrole, hconv, hrec] at h
    rw [if_neg hmodel, hconvs] at h
    injection h with h
    subst h
    rcases List.mem_cons.mp ht with hh | hh
    · subst hh
      exact (roleOf_values m role hrole).symm
    · exact ih ts hrec t hh
  | case10 m rest i h1 h2 role hrole ps hconv e hrec ih =>
    intro turns h t ht
    simp [parseLoop, h1, h2, hrole, hconv, hrec] at h
  | case11 m rest i h1 h2 role hrole ps hconv ts hrec ih =>
    intro turns h t ht
    simp only [parseLoop, if_neg h1, if_neg h2, hrole, hconv, hrec] at h
    injection h with h
    subst h
    rcases List.mem_cons.mp ht with hh | hh
    · subst hh
      exact (roleOf_values m role hrole).symm
    · exact ih ts hrec t hh

/-- When the history loop succeeds, every input message was either the leading
(index-0) system message or of a kind the role chain accepts. -/
theorem parseLoop_ok_kinds (resolve : Resolver) (flag : Bool) :
    ∀ (msgs : List Message) (i : Nat) (rawSys : Option MessageContent)
      (turns : List ContentDict),
      parseLoop resolve flag msgs i rawSys = .ok turns →
      ∀ (j : Nat) (m : Message), msgs.get? j = some m →
        (i + j = 0 ∧ m.isSystem = true) ∨ roleOf m ≠ none := by
  intro msgs i rawSys
  induction msgs, i, rawSys using parseLoop.induct resolve flag with
  | case1 i raw =>
    intro turns _ j m hj
    simp at hj
  | case2 m rest i raw h1 =>
    intro turns h j mm hj
    simp [parseLoop, h1] at h
  | case3 m rest i raw h1 h2 ih =>
    intro turns h j mm hj
    simp only [parseLoop, if_pos h2, if_neg h1] at h
    cases j with
    | zero =>
      injection hj with hj
      subst hj
      left
      simp only [Bool.and_eq_true, beq_iff_eq] at h2
      exact ⟨by omega, h2.2⟩
    | succ k =>
      rcases ih turns h k mm hj with ⟨hz, _⟩ | hr
      · omega
      · exact Or.inr hr
  | case4 m rest i raw h1 h2 hrole =>
    intro turns h j mm hj
    simp [parseLoop, h1, h2, hrole] at h
  | case5 m rest i raw h1 h2 role hrole e hconv =>
    intro turns h j mm hj
    simp [parseLoop, h1, h2, hrole, hconv] at h
  | case6 m rest i h1 h2 role hrole ps hconv sc hmodel =>
    intro turns h j mm hj
    simp [parseLoop, h1, h2, hrole, hconv, hmodel] at h
  | case7 m rest i h1 h2 role hrole ps hconv sc hmodel e hconvs =>
    intro turns h j mm hj
    simp [parseLoop, h1, h2, hrole, hconv, hmodel, hconvs] at h
  | case8 m rest i h1 h2 role hrole ps hconv sc hmodel qs hconvs e hrec ih =>
    intro turns h j mm hj
    simp [parseLoop, h1, h2, hrole, hconv, hmodel, hconvs, hrec] at h
  | case9 m rest i h1 h2 role hrole ps hconv sc hmodel qs hconvs ts hrec ih =>
    intro turns h j mm hj
    cases j with
    | zero =>
      injection hj with hj
      subst hj
      right
      simp [hrole]
    | succ k =>
      rcases ih ts hrec k mm hj with ⟨hz, _⟩ | hr
      · omega
      · exact Or.inr hr
  | case10 m rest i h1 h2 role hrole ps hconv e hrec ih =>
    intro turns h j mm hj
    simp [parseLoop, h1, h2, hrole, hconv, hrec] at h
  | case11 m rest i h1 h2 role hrole ps hconv ts hrec ih =>
    intro turns h j mm hj
    cases j with
    | zero =>
      injection hj with hj
      subst hj
      right
      simp [hrole]
    | succ k =>
      rcases ih ts hrec k mm hj with ⟨hz, _⟩ | hr
      · omega
      · exact Or.inr hr

/-- C9: the role invariant.  (1) Successful translation emits only turns of
role "user" or "model".  (2) When the loop reaches a message of any other
kind — other than a leading system message — it fails with the `ValueError`
citing the message's type and position.  (3) Hence a conversation containing
such a message at any position never translates successfully. -/
theorem c9_role_invariant :
    (∀ (resolve : Resolver) (flag : Bool) (msgs : List Message)
        (turns : List ContentDict),
        parseChatHistory resolve msgs flag = .ok turns →
        ∀ t ∈ turns, t.role = "user" ∨ t.role = "model")
  ∧ (∀ (resolve : Resolver) (flag : Bool) (m : Message) (rest : List Message)
        (i : Nat) (rawSys : Option MessageContent),
        roleOf m = none → ¬(i = 0 ∧ m.isSystem = true) →
        parseLoop resolve flag (m :: rest) i rawSys =
          .error (.valueError (unexpectedTypeMessage m.typeName i)))
  ∧ (∀ (resolve : Resolver) (flag : Bool) (msgs : List Message) (j : Nat)
        (m : Message),
        msgs.get? j = some m → roleOf m = none → ¬(j = 0 ∧ m.isSystem = true) →
        ∃ e, parseChatHistory resolve msgs flag = .error e) := by
  refine ⟨?_, ?_, ?_⟩
  · intro resolve flag msgs turns h
    exact parseLoop_ok_roles resolve flag msgs 0 none turns h
  · intro resolve flag m rest i rawSys hrole hnot
    have hcond : (i == 0 && m.isSystem) = false := by
      rcases Decidable.em (i = 0) with h0 | h0
      · have : m.isSystem = false := by
          cases hs : m.isSystem
          · rfl
          · exact absurd ⟨h0, hs⟩ hnot
        simp [this]
      · simp [h0]
    simp [parseLoop, hcond, hrole]
  · intro resolve flag msgs j m hj hrole hnot
    rcases hres : parseChatHistory resolve msgs flag with e | turns
    · exact ⟨e, rfl⟩
    · exfalso
      rcases parseLoop_ok_kinds resolve flag msgs 0 none turns hres j m hj with
        ⟨hz, hs⟩ | hr
      · exact hnot ⟨by omega, hs⟩
      · exact hr hrole

/-- C9 witness: a `ChatMessage` at position 1, and a successfully translated
single human message. -/
theorem c9_role_invariant_witness :
    ((⟨"user", [Part.text "x"]⟩ : ContentDict).role = "user"
       ∨ (⟨"user", [Part.text "x"]⟩ : ContentDict).role = "model")
  ∧ parseLoop (fun _ => .error "") false
      [Message.chat "misc" (.str "y")] 1 none =
      .error (.valueError (unexpectedTypeMessage "ChatMessage" 1))
  ∧ (∃ e, parseChatHistory (fun _ => .error "")
      [Message.human (.str "x"), Message.chat "misc" (.str "y")] false = .error e) := by
  refine ⟨?_, ?_, ?_⟩
  · exact c9_role_invariant.1 (fun _ => .error "") false [.human (.str "x")]
      [⟨"user", [Part.text "x"]⟩] rfl ⟨"user", [Part.text "x"]⟩ (by simp)
  · exact c9_role_invariant.2.1 (fun _ => .error "") false (.chat "misc" (.str "y"))
      [] 1 none rfl (by simp [Message.isSystem])
  · exact c9_role_invariant.2.2 (fun _ => .error "")  false
      [.human (.str "x"), .chat "misc" (.str "y")] 1 (.chat "misc" (.str "y"))
      rfl rfl (by simp [Message.isSystem])

/-- A successful first call stops the retry loop after one attempt. -/
theorem tenacityLoop_ok (cond : PyExc → Bool) (wait : Nat → Nat)
    (body : Nat → Except PyExc α) (fuel n : Nat) (v : α) (h : body n = .ok v) :
    tenacityLoop cond wait body (fuel + 1) n = ⟨.ok v, 1, []⟩ := by
  rw [tenacityLoop, h]

/-- A failure the predicate rejects is raised immediately, after one attempt. -/
theorem tenacityLoop_fatal (cond : PyExc → Bool) (wait : Nat → Nat)
    (body : Nat → Except PyExc α) (fuel n : Nat) (e : PyExc)
    (h : body n = .error e) (hc : cond e = false) :
    tenacityLoop cond wait body (fuel + 1) n = ⟨.error e, 1, []⟩ := by
  rw [tenacityLoop, h]
  simp [hc]

/-- The retry loop never makes more attempts than its fuel allows. -/
theorem tenacityLoop_attempts_le (cond : PyExc → Bool) (wait : Nat → Nat)
    (body : Nat → Except PyExc α) :
    ∀ (fuel n : Nat), (tenacityLoop cond wait body fuel n).attempts ≤ fuel := by
  intro fuel
  induction fuel with
  | zero =>
    intro n
    simp [tenacityLoop]
  | succ f ihf =>
    intro n
    rw [tenacityLoop]
    cases hb : body n with
    | ok v => simp
    | error e =>
      simp only
      split_ifs with hc
      · simpa using Nat.succ_le_succ (ihf (n + 1))
      · simp

/-- A body that fails every attempt with the same retryable error exhausts the
fuel, re-raises that error unchanged, and sleeps the configured wait once per
completed attempt except the last. -/
theorem tenacityLoop_const_error (cond : PyExc → Bool) (wait : Nat → Nat)
    (body : Nat → Except PyExc α) (e : PyExc) (he : cond e = true)
    (hb : ∀ k, body k = .error e) :
    ∀ (fuel n : Nat), 1 ≤ fuel →
      tenacityLoop cond wait body fuel n =
        ⟨.error e, fuel, (List.range (fuel - 1)).map (fun k => wait (n + k))⟩ := by
  intro fuel
  induction fuel with
  | zero =>
    intro n h
    omega
  | succ f ihf =>
    intro n _
    rw [tenacityLoop]
    cases f with
    | zero => simp [hb n]
    | succ g =>
      have hcond : (cond e && ((g + 1) != 0)) = true := by simp [he]
      simp only [hb n, hcond, if_true]
      rw [ihf (n + 1) (by omega)]
      simp only [Nat.add_sub_cancel, RunTrace.mk.injEq, true_and, and_true]
      rw [List.range_succ_eq_map]
      simp only [List.map_cons, List.map_map, Nat.add_zero, List.cons.injEq, true_and]
      refine List.map_congr_left ?_
      intro k _
      simp only [Function.comp]
      exact congrArg wait (by omega)

/-- A body that fails `j` times with a retryable error and then succeeds
returns the success value on attempt `j + 1`, when the fuel allows it. -/
theorem tenacityLoop_then_ok (cond : PyExc → Bool) (wait : Nat → Nat) (e : PyExc)
    (he : cond e = true) (v : α) :
    ∀ (j n fuel : Nat) (body : Nat → Except PyExc α),
      (∀ k, k < j → body (n + k) = .error e) → body (n + j) = .ok v →
      j + 1 ≤ fuel →
      (tenacityLoop cond wait body fuel n).result = .ok v ∧
      (tenacityLoop cond wait body fuel n).attempts = j + 1 := by
  intro j
  induction j with
  | zero =>
    intro n fuel body _ hok hf
    obtain ⟨f, rfl⟩ : ∃ f, fuel = f + 1 := ⟨fuel - 1, by omega⟩
    rw [Nat.add_zero] at hok
    rw [tenacityLoop_ok cond wait body f n v hok]
    exact ⟨rfl, rfl⟩
  | succ j ihj =>
    intro n fuel body hlt hok hf
    obtain ⟨f, rfl⟩ : ∃ f, fuel = f + 1 := ⟨fuel - 1, by omega⟩
    have hb0 : body n = .error e := by
      have := hlt 0 (by omega)
      simpa using this
    have hfne : (cond e && (f != 0)) = true := by
      simp only [he, Bool.true_and, bne_iff_ne, ne_eq]
      omega
    rw [tenacityLoop, hb0]
    simp only [hfne, if_true]
    have ih := ihj (n + 1) f body
      (fun k hk => by
        have h1 := hlt (k + 1) (by omega)
        have h2 : n + (k + 1) = n + 1 + k := by omega
        rw [h2] at h1
        exact h1)
      (by
        have h2 : n + (j + 1) = n + 1 + j := by omega
        rw [h2] at hok
        exact hok)
      (by omega)
    exact ⟨ih.1, by simp [ih.2]⟩

/-- The tenacity decorator raises a first-attempt failure the predicate
rejects immediately, without retrying. -/
theorem retryDecorator_fatal (body : Nat → Except PyExc α) (e : PyExc)
    (h : body 1 = .error e) (hc : retryCondition e = false) :
    retryDecorator body = ⟨.error e, 1, []⟩ := by
  rw [retryDecorator, show (10 : Nat) = 9 + 1 from rfl]
  exact tenacityLoop_fatal retryCondition retryWait body 9 1 e h hc

/-- The tenacity decorator returns a first-attempt success after one
attempt. -/
theorem retryDecorator_ok (body : Nat → Except PyExc α) (v : α)
    (h : body 1 = .ok v) :
    retryDecorator body = ⟨.ok v, 1, []⟩ := by
  rw [retryDecorator, show (10 : Nat) = 9 + 1 from rfl]
  exact tenacityLoop_ok retryCondition retryWait body 9 1 v h

/-- Exceptions that are not Google API errors are never retried. -/
theorem retryCondition_eq (e : PyExc) : retryCondition e = isGoogleAPIError e := by
  cases e <;> rfl

/-- The sync attempt body passes every non-Google-API exception through
unchanged. -/
theorem chatAttempt_passthrough (e : PyExc) (h : isGoogleAPIError e = false) :
    chatAttempt (α := α) (.error e) = .error e := by
  cases e <;> simp_all [isGoogleAPIError, chatAttempt]

/-- C2 counterexample: on an always-transient failure the waits slept are
2, 4, 8, 16, 32, 60, ... seconds — the first wait is 2 seconds
(`multiplier * 2^0` with multiplier 2), not 1 second as the claim states;
`min=1` is only a lower clamp that never binds. -/
theorem c2_counterexample :
    (chatWithRetry (α := Nat) (fun _ => .error (.serviceUnavailable "503"))).waits =
      [2, 4, 8, 16, 32, 60, 60, 60, 60]
  ∧ retryWait 1 = 2 ∧ retryWait 1 ≠ 1 := by
  exact ⟨rfl, rfl, by decide⟩

/-- C2 amended: the resilient invoker makes at most 10 attempts; the waits are
exponential with first wait 2 seconds, doubling and capped at 60 seconds each;
only predicate-classified transient errors are retried (anything else is
raised after the first attempt); a persistent transient error exhausts all 10
attempts, sleeps 2, 4, 8, 16, 32, 60, 60, 60, 60 seconds, and is re-raised
as-is with no wrapping; a call failing transiently 9 times then succeeding on
the 10th attempt returns the success result. -/
theorem c2_retry_policy (m : String) (v : Nat) (gm : Nat → Except PyExc Nat)
    (h9 : ∀ k, k < 9 → gm (1 + k) = .error (.resourceExhausted m))
    (h10 : gm (1 + 9) = .ok v) :
    (∀ b : Nat → Except PyExc Nat, (chatWithRetry b).attempts ≤ 10)
  ∧ retryWait 1 = 2
  ∧ (∀ n, 1 ≤ n → retryWait (n + 1) = Nat.min (2 * retryWait n) 60 ∧ retryWait n ≤ 60)
  ∧ (∀ (e : PyExc) (b : Nat → Except PyExc Nat), retryCondition e = false →
        chatAttempt (b 1) = .error e → chatWithRetry b = ⟨.error e, 1, []⟩)
  ∧ chatWithRetry (fun _ => (.error (.resourceExhausted m) : Except PyExc Nat)) =
      ⟨.error (.resourceExhausted m), 10, [2, 4, 8, 16, 32, 60, 60, 60, 60]⟩
  ∧ (chatWithRetry gm).result = .ok (some v)
  ∧ (chatWithRetry gm).attempts = 10 := by
  refine ⟨?_, rfl, ?_, ?_, ?_, ?_, ?_⟩
  · intro b
    exact tenacityLoop_attempts_le retryCondition retryWait _ 10 1
  · intro n hn
    have e1 : n + 1 - 1 = n := by omega
    have hab : (2 : Nat) ^ n = 2 * 2 ^ (n - 1) := by
      conv_lhs => rw [show n = (n - 1) + 1 by omega]
      rw [pow_succ]
      ring
    have ha : 1 ≤ (2 : Nat) ^ (n - 1) := Nat.one_le_two_pow
    simp only [retryWait, waitExponential, e1, hab]
    generalize (2 : Nat) ^ (n - 1) = a at ha ⊢
    have h01 : Nat.max 0 1 = 1 := by decide
    have h1 : Nat.max (Nat.max 0 1) (Nat.min (2 * a) 60) = Nat.min (2 * a) 60 := by
      refine Nat.max_eq_right ?_
      rw [h01, Nat.le_min]
      omega
    have h2 : Nat.max (Nat.max 0 1) (Nat.min (2 * (2 * a)) 60) = Nat.min (2 * (2 * a)) 60 := by
      refine Nat.max_eq_right ?_
      rw [h01, Nat.le_min]
      omega
    rw [h1, h2]
    refine ⟨?_, Nat.min_le_right _ _⟩
    simp only [Nat.min_def]
    split_ifs <;> omega
  · intro e b hc hb
    exact retryDecorator_fatal _ e hb hc
  · have h := tenacityLoop_const_error retryCondition retryWait
      (fun n => chatAttempt ((fun _ => (.error (.resourceExhausted m) : Except PyExc Nat)) n))
      (.resourceExhausted m) rfl (fun k => rfl) 10 1 (by omega)
    rw [chatWithRetry, retryDecorator, h]
    refine congrArg _ ?_
    decide
  · have h := tenacityLoop_then_ok retryCondition retryWait (.resourceExhausted m)
      rfl (some v) 9 1 10 (fun n => chatAttempt (gm n))
      (fun k hk => by show chatAttempt (gm (1 + k)) = _; rw [h9 k hk]; rfl)
      (by show chatAttempt (gm (1 + 9)) = _; rw [h10]; rfl) (by omega)
    exact h.1
  · have h := tenacityLoop_then_ok retryCondition retryWait (.resourceExhausted m)
      rfl (some v) 9 1 10 (fun n => chatAttempt (gm n))
      (fun k hk => by show chatAttempt (gm (1 + k)) = _; rw [h9 k hk]; rfl)
      (by show chatAttempt (gm (1 + 9)) = _; rw [h10]; rfl) (by omega)
    exact h.2

/-- C2 witness: a call failing with `ResourceExhausted` on attempts 1–9 and
succeeding on attempt 10. -/
theorem c2_retry_policy_witness :
    (chatWithRetry (fun n => if n ≤ 9 then (.error (.resourceExhausted "429") : Except PyExc Nat) else .ok 7)).result =
      .ok (some 7)
  ∧ (chatWithRetry (fun n => if n ≤ 9 then (.error (.resourceExhausted "429") : Except PyExc Nat) else .ok 7)).attempts = 10
  ∧ retryWait 1 = 2 := by
  have h := c2_retry_policy "429" 7
    (fun n => if n ≤ 9 then .error (.resourceExhausted "429") else .ok 7)
    (fun k hk => by
      show (if 1 + k ≤ 9 then (.error (.resourceExhausted "429") : Except PyExc Nat) else .ok 7) = _
      rw [if_pos (by omega)])
    (by
      show (if 1 + 9 ≤ 9 then (.error (.resourceExhausted "429") : Except PyExc Nat) else .ok 7) = _
      rw [if_neg (by omega)])
  exact ⟨h.2.2.2.2.2.1, h.2.2.2.2.2.2, h.2.1⟩

/-- C3 counterexample: in the asynchronous path a location-unsupported
`FailedPrecondition` is not converted to the configuration `ValueError` and is
not failed immediately: it is classified as a Google API error, retried for
all 10 attempts, and finally re-raised as-is — unlike the synchronous path,
which raises the configuration error on the first attempt. -/
theorem c3_counterexample :
    (achatWithRetry (α := Nat)
        (fun _ => .error (.failedPrecondition "User location is not supported for the API use."))).attempts = 10
  ∧ (achatWithRetry (α := Nat)
        (fun _ => .error (.failedPrecondition "User location is not supported for the API use."))).result =
      .error (.failedPrecondition "User location is not supported for the API use.")
  ∧ chatWithRetry (α := Nat)
        (fun _ => .error (.failedPrecondition "User location is not supported for the API use.")) =
      ⟨.error (.valueError locationErrorMessage), 1, []⟩ := by
  exact ⟨rfl, rfl, rfl⟩

/-- C3 amended: the invalid-argument classification is uniform — in both the
synchronous and asynchronous paths an `InvalidArgument` is wrapped into the
domain error carrying the original message and never retried (first attempt).
The location-unsupported failed-precondition classification exists only in the
synchronous path, where it raises the configuration `ValueError` on the first
attempt; the asynchronous path instead treats a `FailedPrecondition` as a
generic retryable Google API error: it retries all 10 attempts and re-raises
the original exception unchanged. -/
theorem c3_fatal_classification (mFP mIA : String)
    (b bi : Nat → Except PyExc Nat)
    (hloc : containsSub mFP "location is not supported" = true)
    (hb : b 1 = .error (.failedPrecondition mFP))
    (hbi : bi 1 = .error (.invalidArgument mIA)) :
    chatWithRetry b = ⟨.error (.valueError locationErrorMessage), 1, []⟩
  ∧ chatWithRetry bi =
      ⟨.error (.chatGoogleGenerativeAIError ("Invalid argument provided to Gemini: " ++ mIA)), 1, []⟩
  ∧ achatWithRetry bi =
      ⟨.error (.chatGoogleGenerativeAIError ("Invalid argument provided to Gemini: " ++ mIA)), 1, []⟩
  ∧ (achatWithRetry (fun _ => (.error (.failedPrecondition mFP) : Except PyExc Nat))).result =
      .error (.failedPrecondition mFP)
  ∧ (achatWithRetry (fun _ => (.error (.failedPrecondition mFP) : Except PyExc Nat))).attempts = 10 := by
  have hconst := tenacityLoop_const_error retryCondition retryWait
    (fun n => achatAttempt ((fun _ => (.error (.failedPrecondition mFP) : Except PyExc Nat)) n))
    (.failedPrecondition mFP) rfl (fun k => rfl) 10 1 (by omega)
  refine ⟨?_, ?_, ?_, ?_, ?_⟩
  · refine retryDecorator_fatal _ _ ?_ rfl
    show chatAttempt (b 1) = _
    rw [hb]
    simp [chatAttempt, hloc]
  · refine retryDecorator_fatal _ _ ?_ rfl
    show chatAttempt (bi 1) = _
    rw [hbi]
    rfl
  · refine retryDecorator_fatal _ _ ?_ rfl
    show achatAttempt (bi 1) = _
    rw [hbi]
    rfl
  · rw [achatWithRetry, retryDecorator, hconst]
  · rw [achatWithRetry, retryDecorator, hconst]

/-- C3 witness: a location-unsupported `FailedPrecondition` and an
`InvalidArgument` with concrete messages. -/
theorem c3_fatal_classification_witness :
    chatWithRetry (fun _ => (.error (.failedPrecondition "User location is not supported for the API use.") : Except PyExc Nat)) =
      ⟨.error (.valueError locationErrorMessage), 1, []⟩
  ∧ achatWithRetry (fun _ => (.error (.invalidArgument "bad request") : Except PyExc Nat)) =
      ⟨.error (.chatGoogleGenerativeAIError ("Invalid argument provided to Gemini: " ++ "bad request")), 1, []⟩ := by
  have h := c3_fatal_classification "User location is not supported for the API use."
    "bad request"
    (fun _ => .error (.failedPrecondition "User location is not supported for the API use."))
    (fun _ => .error (.invalidArgument "bad request"))
    (by decide) rfl rfl
  exact ⟨h.1, h.2.2.1⟩

/-- C4 counterexample: a `FailedPrecondition` whose message does not mention an
unsupported location is caught by the first `except` clause, the handler body
does not re-raise, and the invocation returns `None` normally on the first
attempt — a failing invocation can return normally. -/
theorem c4_counterexample :
    chatWithRetry (α := Nat) (fun _ => .error (.failedPrecondition "precondition check failed")) =
      ⟨.ok none, 1, []⟩ := by
  rfl

/-- C4 amended: every exception that is not a Google-API-classified error
(hence neither transient, nor invalid-argument, nor any failed-precondition)
is re-raised unchanged to the caller after the first attempt, with no retry;
however a failed-precondition error whose message lacks the location marker is
swallowed by the sync handler and the invocation returns `None` — a normal
return — so "a failing invocation never returns normally" does not hold. -/
theorem c4_unclassified_errors (e : PyExc) (b bf : Nat → Except PyExc Nat) (mFP : String)
    (hne : isGoogleAPIError e = false)
    (hb : b 1 = .error e)
    (hloc : containsSub mFP "location is not supported" = false)
    (hbf : bf 1 = .error (.failedPrecondition mFP)) :
    chatWithRetry b = ⟨.error e, 1, []⟩
  ∧ chatWithRetry bf = ⟨.ok none, 1, []⟩ := by
  constructor
  · refine retryDecorator_fatal _ e ?_ ?_
    · show chatAttempt (b 1) = _
      rw [hb]
      exact chatAttempt_passthrough e hne
    · rw [retryCondition_eq, hne]
  · refine retryDecorator_ok _ none ?_
    show chatAttempt (bf 1) = _
    rw [hbf]
    simp [chatAttempt, hloc]

/-- C4 witness: an `IndexError` propagates unchanged; a non-location
`FailedPrecondition` is swallowed. -/
theorem c4_unclassified_errors_witness :
    chatWithRetry (fun _ => (.error (.indexError "boom") : Except PyExc Nat)) =
      ⟨.error (.indexError "boom"), 1, []⟩
  ∧ chatWithRetry (fun _ => (.error (.failedPrecondition "quota misconfigured") : Except PyExc Nat)) =
      ⟨.ok none, 1, []⟩ :=
  c4_unclassified_errors (.indexError "boom")
    (fun _ => .error (.indexError "boom"))
    (fun _ => .error (.failedPrecondition "quota misconfigured"))
    "quota misconfigured" rfl rfl (by decide) rfl

end ChatModels
